import Mathlib

/-!
Shallow embedding of src/services/auth.service.js
(signup, login, requestPasswordReset, resetPassword, logout).

The auth service orchestrates external collaborators that are not part of
src/: the User and Token mongoose models, the Response envelope helper and
the jwt helper. Those collaborators are modelled from the spec (each such
definition carries a doc comment starting with `Modelled from the spec:`);
the control flow, branch conditions, status codes, messages, payload and
cookie shapes are translated directly from auth.service.js.

Asynchronous store effects are modelled as explicit state passing on a
`Store` value; `next(error)` (the generic error path) is the `.error`
branch of an `Except AppError` result. Randomness (the fresh reset-token
value) and the environment (`NODE_ENV === "production"`) are inputs.
-/

deriving instance DecidableEq for Except

namespace AuthService

/-- Modelled from the spec: a persisted user record of the credential store
(the users.model.js schema is not in src/). Fields are the ones the service
reads or writes: identity, email, stored password hash, profile fields,
role, timestamps. -/
structure UserRec where
  _id : Nat
  firstName : String
  lastName : String
  email : String
  password : String
  confirmPassword : String
  dateOfBirth : String
  gender : String
  cart : String
  role : String
  createdAt : Nat
  updatedAt : Nat
deriving Repr, DecidableEq

/-- Modelled from the spec: a persisted password-reset token record of the
token store (token.model.js is not in src/): owning user id and the opaque
token string. -/
structure TokenRec where
  userId : Nat
  resetPasswordToken : String
deriving Repr, DecidableEq

/-- The external persistence state: the credential store and the reset
token store. -/
structure Store where
  users : List UserRec
  tokens : List TokenRec
deriving Repr, DecidableEq

/-- Modelled from the spec: the store-level one-way password hash, applied
as an invariant on save ("password is stored only as a one-way hash";
"hash recomputed as a store-level side effect of the update"). An abstract
injective tagging function stands in for the hash. -/
def hashPassword (p : String) : String := "h:" ++ p

/-- Modelled from the spec: `user.comparePassword` of the User model
(not in src/) compares a submitted password against the stored hash. -/
def comparePassword (u : UserRec) (candidate : String) : Bool :=
  hashPassword candidate == u.password

/-- Modelled from the spec: `user.createJWT()`, the legacy session-token
constructor of the Token Signer, derived from the user id at issuance. -/
def createJWT (u : UserRec) : String := "jwt:" ++ toString u._id

/-- Modelled from the spec: `signAccessToken` of jwtHelper (not in src/),
derives the short-lived access token from the user id. -/
def signAccessToken (id : Nat) : String := "access:" ++ toString id

/-- Modelled from the spec: `signRefreshToken` of jwtHelper (not in src/),
derives the longer-lived refresh token from the user id. -/
def signRefreshToken (id : Nat) : String := "refresh:" ++ toString id

/-- Decimal digit value of a character, if it is a digit. -/
def digitVal? (c : Char) : Option Nat :=
  if c.toNat ≥ 48 && c.toNat ≤ 57 then some (c.toNat - 48) else none

/-- Reads a decimal number from a character list, failing on any
non-digit. -/
def readDigits : List Char → Nat → Option Nat
  | [], acc => some acc
  | c :: cs, acc =>
    match digitVal? c with
    | some d => readDigits cs (acc * 10 + d)
    | none => none

/-- Parses a non-empty all-digit character list as a number. -/
def parseNat? : List Char → Option Nat
  | [] => none
  | c :: cs => readDigits (c :: cs) 0

/-- Modelled from the spec: `verifyRefreshToken` of jwtHelper (not in
src/) validates a refresh token and extracts the owning user id; it
rejects anything that is not a well-formed signed refresh token. -/
def verifyRefreshToken (t : String) : Except String Nat :=
  match t.data with
  | 'r' :: 'e' :: 'f' :: 'r' :: 'e' :: 's' :: 'h' :: ':' :: rest =>
    match parseNat? rest with
    | some id => .ok id
    | none => .error "invalid refresh token"
  | _ => .error "invalid refresh token"

/-- The public user object built by login (auth.service.js lines 134-147):
public profile fields plus the three issued tokens; there is no password
field. -/
structure PublicUser where
  _id : Nat
  firstName : String
  lastName : String
  email : String
  dateOfBirth : String
  gender : String
  createdAt : Nat
  updatedAt : Nat
  role : String
  token : String
  accessToken : String
  refreshToken : String
deriving Repr, DecidableEq

/-- The payload slot of a result envelope: `{}`, `[]`, the signup token
triple, the login user object, or the raw reset-token string. -/
inductive Payload where
  | obj
  | list
  | tokens (token accessToken refreshToken : String)
  | loginData (user : PublicUser)
  | rawToken (t : String)
deriving Repr, DecidableEq

/-- The oldInput echoed on validation failure: signup echoes seven body
fields (auth.service.js lines 26-34), login echoes email and password
(lines 103-106), the reset flows echo the email (lines 203-205, 256-258). -/
inductive OldInput where
  | signupInput (firstName lastName email password confirmPassword dateOfBirth gender : String)
  | loginInput (email password : String)
  | emailInput (email : String)
deriving Repr, DecidableEq

/-- Modelled from the spec: the uniform result envelope built by the
Response util (utils/response.js is not in src/): payload, success flag,
isError flag, message, status code, plus the optional oldInput and
validationErrors attached by the mutation sites in the service. -/
structure Envelope where
  payload : Payload
  success : Bool
  isError : Bool
  message : String
  statusCode : Nat
  oldInput : Option OldInput := none
  validationErrors : List String := []
deriving Repr, DecidableEq

/-- Modelled from the spec: the `Response(data, success, error, message,
status)` constructor; oldInput and validationErrors start absent and are
attached by assignment afterwards. -/
def Response (payload : Payload) (success isError : Bool) (message : String) (statusCode : Nat) : Envelope :=
  { payload := payload, success := success, isError := isError,
    message := message, statusCode := statusCode }

/-- A cookie instruction issued to the transport layer: `res.cookie` with
its options object, or `res.clearCookie`. -/
inductive CookieOp where
  | set (name value : String) (httpOnly : Bool) (maxAge : Nat) (secure : Bool)
  | clear (name : String)
deriving Repr, DecidableEq

/-- An error forwarded to the generic error path (`next(error)`). -/
inductive AppError where
  | referenceError (msg : String)
  | jwtError (msg : String)
  | storeError (msg : String)
deriving Repr, DecidableEq

/-- Modelled from the spec: `User.findOne({ email })` of the abstract
repository interface: first user whose email matches. -/
def findUserByEmail (st : Store) (email : String) : Option UserRec :=
  st.users.find? (fun u => u.email == email)

/-- Modelled from the spec: `User.findById(id)`. -/
def findUserById (st : Store) (id : Nat) : Option UserRec :=
  st.users.find? (fun u => u._id == id)

/-- Modelled from the spec: `Token.findOne({ userId })`. -/
def findTokenByUserId (st : Store) (uid : Nat) : Option TokenRec :=
  st.tokens.find? (fun t => t.userId == uid)

/-- Modelled from the spec: `Token.findOne({ userId, resetPasswordToken })`:
first token record matching both the user id and the token string. -/
def findToken (st : Store) (uid : Nat) (tok : String) : Option TokenRec :=
  st.tokens.find? (fun t => t.userId == uid && t.resetPasswordToken == tok)

/-- Modelled from the spec: `newUser.save()`. The store enforces email
uniqueness (duplicate key error, mongo code 11000) and hashes the password
on save. -/
def saveNewUser (st : Store) (u : UserRec) : Except Nat (UserRec × Store) :=
  if st.users.any (fun v => v.email == u.email) then
    .error 11000
  else
    .ok ({ u with password := hashPassword u.password },
         { st with users := st.users ++ [{ u with password := hashPassword u.password }] })

/-- Modelled from the spec: `user.save()` on an existing document: the
record with the same id is replaced and the (changed) password is rehashed
as a store-level side effect of the update. -/
def saveUserUpdate (st : Store) (u : UserRec) : Store :=
  let replace := fun (v : UserRec) =>
    if v._id == u._id then { u with password := hashPassword u.password } else v
  { st with users := st.users.map replace }

/-- Modelled from the spec: `passwordResetToken.delete()`: removes the
found token document, i.e. the first record matching both fields. -/
def eraseFirstToken : List TokenRec → Nat → String → List TokenRec
  | [], _, _ => []
  | t :: ts, uid, tok =>
    if t.userId == uid && t.resetPasswordToken == tok then ts
    else t :: eraseFirstToken ts uid tok

/-- The documented store invariant "at most one live reset token per user",
enforced at the store boundary. -/
def oneTokenPerUser (st : Store) : Prop :=
  st.tokens.Pairwise (fun a b => a.userId ≠ b.userId)

instance (st : Store) : Decidable (oneTokenPerUser st) := by
  unfold oneTokenPerUser
  exact List.instDecidablePairwise st.tokens

/-- The signup request body together with the validator outcome
(`validationResult(req)` is computed by external middleware; its ordered
error messages arrive with the request). -/
structure SignupReq where
  firstName : String
  lastName : String
  email : String
  password : String
  confirmPassword : String
  dateOfBirth : String
  gender : String
  cart : String
  role : String
  validationErrors : List String
deriving Repr, DecidableEq

/-- The login request body plus validator outcome. -/
structure LoginReq where
  email : String
  password : String
  validationErrors : List String
deriving Repr, DecidableEq

/-- The forget-password request body plus validator outcome. -/
structure EmailReq where
  email : String
  validationErrors : List String
deriving Repr, DecidableEq

/-- The reset-password request: path params userId and token, body fields,
plus validator outcome. -/
structure ResetReq where
  userId : Nat
  token : String
  email : String
  password : String
  confirmPassword : String
  validationErrors : List String
deriving Repr, DecidableEq

/-- The logout request body; `none` models a missing/falsy refreshToken. -/
structure LogoutReq where
  refreshToken : Option String
deriving Repr, DecidableEq

/-- signup (auth.service.js lines 18-87): on validation failure a 422
envelope echoing the submitted body fields; otherwise build the new user
with a fresh id and save it; on success issue the three tokens and return
201; on duplicate key (11000) return the 409 envelope; any other store
failure goes to the generic error path. -/
def signup (req : SignupReq) (freshId : Nat) (st : Store) : Except AppError Envelope × Store :=
  match req.validationErrors with
  | msg :: rest =>
    (.ok { Response Payload.obj false true msg 422 with
            oldInput := some (OldInput.signupInput req.firstName req.lastName req.email
              req.password req.confirmPassword req.dateOfBirth req.gender),
            validationErrors := msg :: rest }, st)
  | [] =>
    let newUser : UserRec :=
      { _id := freshId, firstName := req.firstName, lastName := req.lastName,
        email := req.email, password := req.password,
        confirmPassword := req.confirmPassword, dateOfBirth := req.dateOfBirth,
        gender := req.gender, cart := req.cart, role := req.role,
        createdAt := 0, updatedAt := 0 }
    match saveNewUser st newUser with
    | .ok (user, st1) =>
      (.ok (Response
        (Payload.tokens (createJWT user) (signAccessToken user._id) (signRefreshToken user._id))
        true false "Registered Successfully" 201), st1)
    | .error code =>
      if code == 11000 then
        (.ok (Response Payload.obj false true
          ("E-Mail address  " ++ newUser.email ++ " is already exists, please pick a different one.")
          409), st)
      else
        (.error (AppError.storeError "user save failed"), st)

/-- login (auth.service.js lines 95-174): 422 on validation failure
(echoing email and password); generic 401 when the email is unknown or the
password comparison fails; on success the public user object plus the
three tokens, and the three cookies (authToken one year, accessToken one
day, refreshToken seven days, all httpOnly, secure only in production). -/
def login (req : LoginReq) (prod : Bool) (st : Store) : Except AppError (Envelope × List CookieOp) :=
  match req.validationErrors with
  | msg :: rest =>
    .ok ({ Response Payload.obj false true msg 422 with
            oldInput := some (OldInput.loginInput req.email req.password),
            validationErrors := msg :: rest }, [])
  | [] =>
    match findUserByEmail st req.email with
    | none => .ok (Response Payload.obj false true "Auth Failed (Invalid Credentials)" 401, [])
    | some user =>
      if comparePassword user req.password then
        let token := createJWT user
        let accessToken := signAccessToken user._id
        let refreshToken := signRefreshToken user._id
        .ok (Response
          (Payload.loginData
            { _id := user._id, firstName := user.firstName, lastName := user.lastName,
              email := user.email, dateOfBirth := user.dateOfBirth, gender := user.gender,
              createdAt := user.createdAt, updatedAt := user.updatedAt, role := user.role,
              token := token, accessToken := accessToken, refreshToken := refreshToken })
          true false "Auth successful" 200,
          [CookieOp.set "authToken" token true (365 * 24 * 60 * 60 * 1000) prod,
           CookieOp.set "accessToken" accessToken true (24 * 60 * 60 * 1000) prod,
           CookieOp.set "refreshToken" refreshToken true (7 * 24 * 60 * 60 * 1000) prod])
      else
        .ok (Response Payload.obj false true "Auth Failed (Invalid Credentials)" 401, [])

/-- requestPasswordReset (auth.service.js lines 196-240): 422 on
validation failure (echoing the email); 401 naming the email when no
account matches; otherwise reuse the live reset token if one exists, else
create one with a freshly generated opaque value and persist it; return
200 with the raw token value as payload. `freshTok` is the generated
opaque value, supplied as an oracle input. -/
def requestPasswordReset (req : EmailReq) (freshTok : String) (st : Store) : Except AppError Envelope × Store :=
  match req.validationErrors with
  | msg :: rest =>
    (.ok { Response Payload.obj false true msg 422 with
            oldInput := some (OldInput.emailInput req.email),
            validationErrors := msg :: rest }, st)
  | [] =>
    match findUserByEmail st req.email with
    | none =>
      (.ok (Response Payload.obj false true
        ("The email address " ++ req.email ++
          " is not associated with any account. Double-check your email address and try again.")
        401), st)
    | some user =>
      match findTokenByUserId st user._id with
      | some token =>
        (.ok (Response (Payload.rawToken token.resetPasswordToken) true false
          ("A reset email has been sent to " ++ req.email ++ ".") 200), st)
      | none =>
        let token : TokenRec := { userId := user._id, resetPasswordToken := freshTok }
        (.ok (Response (Payload.rawToken token.resetPasswordToken) true false
          ("A reset email has been sent to " ++ req.email ++ ".") 200),
         { st with tokens := st.tokens ++ [token] })

/-- resetPassword (auth.service.js lines 248-288): 422 on validation
failure; 400 "Password reset token is invalid or has expired." when the
user id is unknown or no token record matches both the user id and the
token string; on match persist the new password (rehashed by the store),
then delete the consumed token and return 200. `saveOk` is the outcome of
the fallible `user.save()` persistence call: when it rejects, the error
propagates to the generic error path before the token is deleted. -/
def resetPassword (req : ResetReq) (saveOk : Bool) (st : Store) : Except AppError Envelope × Store :=
  match req.validationErrors with
  | msg :: rest =>
    (.ok { Response Payload.obj false true msg 422 with
            oldInput := some (OldInput.emailInput req.email),
            validationErrors := msg :: rest }, st)
  | [] =>
    match findUserById st req.userId with
    | none =>
      (.ok (Response Payload.obj false true "Password reset token is invalid or has expired." 400), st)
    | some user =>
      match findToken st user._id req.token with
      | none =>
        (.ok (Response Payload.obj false true "Password reset token is invalid or has expired." 400), st)
      | some passwordResetToken =>
        if saveOk then
          let updated : UserRec :=
            { user with password := req.password, confirmPassword := req.confirmPassword }
          let st1 := saveUserUpdate st updated
          let remaining :=
            eraseFirstToken st1.tokens passwordResetToken.userId passwordResetToken.resetPasswordToken
          let st2 := { st1 with tokens := remaining }
          (.ok (Response Payload.obj true false
            "Your password has been Password Reset Successfully updated." 200), st2)
        else
          (.error (AppError.storeError "user save failed"), st)

/-- logout (auth.service.js lines 296-324): 422 when the body carries no
refreshToken; verification failure of the token goes to the generic error
path; unknown user id yields the 400 "Unauthenticated" envelope; after a
successful user lookup the function body evaluates the stray identifier
`s` (line 309), which raises a ReferenceError that the surrounding try
forwards to the generic error path, so the `clearCookie` calls and the
200 response below it never execute. -/
def logout (req : LogoutReq) (st : Store) : Except AppError (Envelope × List CookieOp) :=
  match req.refreshToken with
  | none =>
    .ok (Response Payload.obj false true "Bad Request Please provide a valid  refreshToken." 422, [])
  | some rt =>
    match verifyRefreshToken rt with
    | .error e => .error (AppError.jwtError e)
    | .ok userId =>
      match findUserById st userId with
      | none => .ok (Response Payload.list false true "Unauthenticated" 400, [])
      | some _ => .error (AppError.referenceError "s is not defined")

/-- The public projection of a stored user built by login's payload: the
public profile fields plus the three freshly issued tokens; it does not
read the stored password hash. -/
def publicUserOf (u : UserRec) : PublicUser :=
  { _id := u._id, firstName := u.firstName, lastName := u.lastName, email := u.email,
    dateOfBirth := u.dateOfBirth, gender := u.gender, createdAt := u.createdAt,
    updatedAt := u.updatedAt, role := u.role, token := createJWT u,
    accessToken := signAccessToken u._id, refreshToken := signRefreshToken u._id }

/-- All string values carried by the public user object. -/
def PublicUser.strings (p : PublicUser) : List String :=
  [p.firstName, p.lastName, p.email, p.dateOfBirth, p.gender, p.role,
   p.token, p.accessToken, p.refreshToken]

/-- All string values carried by a payload. -/
def Payload.strings : Payload → List String
  | Payload.obj => []
  | Payload.list => []
  | Payload.tokens t a r => [t, a, r]
  | Payload.loginData u => u.strings
  | Payload.rawToken t => [t]

/-- The user-record replacement performed by a successful resetPassword:
the record with the matching id gets the new password (rehashed by the
store) and confirmation field. -/
def replaceUser (u : UserRec) (pw cpw : String) : UserRec → UserRec :=
  fun v =>
    if v._id == u._id then { u with password := hashPassword pw, confirmPassword := cpw }
    else v

/-- The store produced by a successful resetPassword: the user updated,
the consumed token erased. -/
def consumedStore (st : Store) (u : UserRec) (tk : TokenRec) (pw cpw : String) : Store :=
  { users := st.users.map (replaceUser u pw cpw),
    tokens := eraseFirstToken st.tokens tk.userId tk.resetPasswordToken }

/-- The user record as persisted by a successful signup: the submitted
fields, the fresh identity, the stored password hash. -/
def savedUserOf (req : SignupReq) (freshId : Nat) : UserRec :=
  { _id := freshId, firstName := req.firstName, lastName := req.lastName,
    email := req.email, password := hashPassword req.password,
    confirmPassword := req.confirmPassword, dateOfBirth := req.dateOfBirth,
    gender := req.gender, cart := req.cart, role := req.role,
    createdAt := 0, updatedAt := 0 }

/-- A concrete registered user for concrete evaluations: id 1, email
jo@x.com, stored hash of the password "pw". -/
def wUser : UserRec :=
  { _id := 1, firstName := "Jo", lastName := "Doe", email := "jo@x.com",
    password := hashPassword "pw", confirmPassword := "pw",
    dateOfBirth := "2000-01-01", gender := "female", cart := "",
    role := "user", createdAt := 5, updatedAt := 6 }

/-- A concrete store holding wUser and no reset tokens. -/
def wStore : Store := { users := [wUser], tokens := [] }

/-- A concrete store holding wUser and a live reset token "tok1" for it. -/
def wTokenStore : Store :=
  { users := [wUser], tokens := [{ userId := 1, resetPasswordToken := "tok1" }] }

/-- A concrete reset-password request for user 1 with the live token
"tok1". -/
def wResetReq : ResetReq :=
  { userId := 1, token := "tok1", email := "jo@x.com", password := "newpw",
    confirmPassword := "newpw", validationErrors := [] }

/-- A concrete reset-password request for user 1 with a token string
matching no stored token. -/
def wWrongTokenReq : ResetReq :=
  { userId := 1, token := "wrong", email := "jo@x.com", password := "newpw",
    confirmPassword := "newpw", validationErrors := [] }

/-- A concrete signup request for the already-taken email jo@x.com,
passing validation. -/
def wDupSignupReq : SignupReq :=
  { firstName := "Al", lastName := "Bee", email := "jo@x.com", password := "s3",
    confirmPassword := "s3", dateOfBirth := "1999-01-01", gender := "male",
    cart := "", role := "user", validationErrors := [] }

/-- A concrete signup request for a fresh email, passing validation. -/
def wFreshSignupReq : SignupReq :=
  { firstName := "Al", lastName := "Bee", email := "al@x.com", password := "s3",
    confirmPassword := "s3", dateOfBirth := "1999-01-01", gender := "male",
    cart := "", role := "user", validationErrors := [] }

/-- A concrete signup request that fails validation: the validator
produced one error message, and the body carries the sensitive password
fields. -/
def wInvalidSignupReq : SignupReq :=
  { firstName := "Al", lastName := "Bee", email := "not-an-email", password := "Secret1!",
    confirmPassword := "Secret1!", dateOfBirth := "1999-01-01", gender := "male",
    cart := "", role := "user", validationErrors := ["E-Mail address is invalid"] }

lemma hashPassword_ne_createJWT (p : String) (u : UserRec) : hashPassword p ≠ createJWT u := by
  intro h
  have h2 := congrArg String.data h
  rw [hashPassword, createJWT, String.data_append, String.data_append] at h2
  exact absurd (List.head_eq_of_cons_eq h2) (by decide)

lemma hashPassword_ne_access (p : String) (i : Nat) : hashPassword p ≠ signAccessToken i := by
  intro h
  have h2 := congrArg String.data h
  rw [hashPassword, signAccessToken, String.data_append, String.data_append] at h2
  exact absurd (List.head_eq_of_cons_eq h2) (by decide)

lemma hashPassword_ne_refresh (p : String) (i : Nat) : hashPassword p ≠ signRefreshToken i := by
  intro h
  have h2 := congrArg String.data h
  rw [hashPassword, signRefreshToken, String.data_append, String.data_append] at h2
  exact absurd (List.head_eq_of_cons_eq h2) (by decide)

lemma createJWT_ne_empty (u : UserRec) : createJWT u ≠ "" := by
  intro h
  have h2 := congrArg String.data h
  rw [createJWT, String.data_append] at h2
  exact List.cons_ne_nil _ _ h2

lemma signAccessToken_ne_empty (i : Nat) : signAccessToken i ≠ "" := by
  intro h
  have h2 := congrArg String.data h
  rw [signAccessToken, String.data_append] at h2
  exact List.cons_ne_nil _ _ h2

lemma signRefreshToken_ne_empty (i : Nat) : signRefreshToken i ≠ "" := by
  intro h
  have h2 := congrArg String.data h
  rw [signRefreshToken, String.data_append] at h2
  exact List.cons_ne_nil _ _ h2

lemma eq_of_comparePassword (u : UserRec) (p : String) (h : comparePassword u p = true) :
    u.password = hashPassword p := by
  rw [comparePassword] at h
  exact (eq_of_beq h).symm

lemma findUserById_saveUserUpdate (st : Store) (w : UserRec) (i : Nat) :
    findUserById (saveUserUpdate st w) i
      = (findUserById st i).map
          (fun v => if v._id == w._id then { w with password := hashPassword w.password } else v) := by
  unfold findUserById saveUserUpdate
  rw [List.find?_map]
  have hc : ∀ v : UserRec,
      ((fun u => u._id == i) ∘ fun v =>
        if v._id == w._id then { w with password := hashPassword w.password } else v) v
      = (v._id == i) := by
    intro v
    by_cases h : v._id = w._id
    · simp [h]
    · simp [h]
  rw [funext hc]

lemma find?_eraseFirstToken_none (l : List TokenRec) (uid : Nat) (tok : String)
    (hp : l.Pairwise (fun a b => a.userId ≠ b.userId)) :
    (eraseFirstToken l uid tok).find?
      (fun t => t.userId == uid && t.resetPasswordToken == tok) = none := by
  induction l with
  | nil => rfl
  | cons t ts ih =>
    rcases List.pairwise_cons.mp hp with ⟨hhead, htail⟩
    by_cases hc : (t.userId == uid && t.resetPasswordToken == tok) = true
    · rw [eraseFirstToken, if_pos hc]
      apply List.find?_eq_none.mpr
      intro x hx hpx
      have huid : t.userId = uid := eq_of_beq (Bool.and_elim_left hc)
      have hxid : x.userId = uid := eq_of_beq (Bool.and_elim_left hpx)
      exact hhead x hx (huid.trans hxid.symm)
    · rw [eraseFirstToken, if_neg hc, List.find?_cons_of_neg _ (by simpa using hc), ih htail]


lemma find?_id_map (l : List UserRec) (f : UserRec → UserRec) (i : Nat)
    (hf : ∀ v, (f v)._id = v._id) :
    (l.map f).find? (fun v => v._id == i) = (l.find? (fun v => v._id == i)).map f := by
  rw [List.find?_map]
  have hp : ((fun v : UserRec => v._id == i) ∘ f) = (fun v : UserRec => v._id == i) := by
    funext v
    simp [Function.comp, hf v]
  rw [hp]

/-- C1: the claim expects logout with a verifying refresh token for an
existing user to clear the accessToken and refreshToken cookies and
return a 200 envelope; instead the stray identifier statement at
auth.service.js line 309 raises a ReferenceError on exactly that path,
which the try/catch forwards to the generic error path, so no cookie is
cleared and no 200 envelope is returned. -/
theorem logout_stray_statement_breaks_success_path :
    logout { refreshToken := some (signRefreshToken 1) } wStore
      = .error (AppError.referenceError "s is not defined") := by decide


/-- C2: login with a non-existent email and login with an existing email
but a wrong password return the very same envelope: status code 401 and
the byte-identical generic message "Auth Failed (Invalid Credentials)". -/
theorem login_enumeration_resistant
    (st : Store) (prod : Bool) (e1 p1 e2 p2 : String) (u : UserRec)
    (h1 : findUserByEmail st e1 = none)
    (h2 : findUserByEmail st e2 = some u)
    (h3 : comparePassword u p2 = false) :
    login { email := e1, password := p1, validationErrors := [] } prod st
      = .ok (Response Payload.obj false true "Auth Failed (Invalid Credentials)" 401, []) ∧
    login { email := e2, password := p2, validationErrors := [] } prod st
      = .ok (Response Payload.obj false true "Auth Failed (Invalid Credentials)" 401, []) := by
  constructor
  · simp [login, h1]
  · simp [login, h2, h3]

/-- C2 witness: concrete store, unknown email "no@x.com" versus known
email "jo@x.com" with the wrong password "bad". -/
theorem login_enumeration_resistant_witness :
    findUserByEmail wStore "no@x.com" = none ∧
    findUserByEmail wStore "jo@x.com" = some wUser ∧
    comparePassword wUser "bad" = false ∧
    (login { email := "no@x.com", password := "p", validationErrors := [] } false wStore
        = .ok (Response Payload.obj false true "Auth Failed (Invalid Credentials)" 401, []) ∧
     login { email := "jo@x.com", password := "bad", validationErrors := [] } false wStore
        = .ok (Response Payload.obj false true "Auth Failed (Invalid Credentials)" 401, [])) :=
  ⟨by decide, by decide, by decide,
   login_enumeration_resistant wStore false "no@x.com" "p" "jo@x.com" "bad" wUser
     (by decide) (by decide) (by decide)⟩

/-- C3: when the account already has a live reset token, two successive
requestPasswordReset calls (with arbitrary fresh-token oracles) both
return a 200 envelope carrying the same stored token value, and neither
call rotates the token: the store is unchanged. -/
theorem requestPasswordReset_reuses_live_token
    (st : Store) (e t1 t2 : String) (u : UserRec) (tk : TokenRec)
    (hu : findUserByEmail st e = some u)
    (ht : findTokenByUserId st u._id = some tk) :
    requestPasswordReset { email := e, validationErrors := [] } t1 st
      = (.ok (Response (Payload.rawToken tk.resetPasswordToken) true false
          ("A reset email has been sent to " ++ e ++ ".") 200), st) ∧
    requestPasswordReset { email := e, validationErrors := [] } t2
        (requestPasswordReset { email := e, validationErrors := [] } t1 st).2
      = (.ok (Response (Payload.rawToken tk.resetPasswordToken) true false
          ("A reset email has been sent to " ++ e ++ ".") 200), st) := by
  have h1 : requestPasswordReset { email := e, validationErrors := [] } t1 st
      = (.ok (Response (Payload.rawToken tk.resetPasswordToken) true false
          ("A reset email has been sent to " ++ e ++ ".") 200), st) := by
    simp [requestPasswordReset, hu, ht]
  refine ⟨h1, ?_⟩
  rw [h1]
  simp [requestPasswordReset, hu, ht]

/-- C3 witness: concrete store with a live token "tok1" for wUser; the
two calls use distinct fresh-token oracles "f1" and "f2" and still both
return "tok1". -/
theorem requestPasswordReset_reuses_live_token_witness :
    findUserByEmail wTokenStore "jo@x.com" = some wUser ∧
    findTokenByUserId wTokenStore 1 = some { userId := 1, resetPasswordToken := "tok1" } ∧
    (requestPasswordReset { email := "jo@x.com", validationErrors := [] } "f1" wTokenStore
      = (.ok (Response (Payload.rawToken "tok1") true false
          ("A reset email has been sent to " ++ "jo@x.com" ++ ".") 200), wTokenStore) ∧
     requestPasswordReset { email := "jo@x.com", validationErrors := [] } "f2"
        (requestPasswordReset { email := "jo@x.com", validationErrors := [] } "f1" wTokenStore).2
      = (.ok (Response (Payload.rawToken "tok1") true false
          ("A reset email has been sent to " ++ "jo@x.com" ++ ".") 200), wTokenStore)) :=
  ⟨by decide, by decide,
   requestPasswordReset_reuses_live_token wTokenStore "jo@x.com" "f1" "f2" wUser
     { userId := 1, resetPasswordToken := "tok1" } (by decide) (by decide)⟩

/-- C5: resetPassword with an existing userId but a token string matching
no stored token for that user returns the 400 envelope with message
"Password reset token is invalid or has expired." and leaves the store,
hence the user's stored password, untouched. -/
theorem resetPassword_wrong_token_rejected
    (st : Store) (req : ResetReq) (u : UserRec) (saveOk : Bool)
    (hv : req.validationErrors = [])
    (hu : findUserById st req.userId = some u)
    (ht : findToken st u._id req.token = none) :
    resetPassword req saveOk st
      = (.ok (Response Payload.obj false true
          "Password reset token is invalid or has expired." 400), st) := by
  simp [resetPassword, hv, hu, ht]

/-- C5 witness: user 1 exists in the concrete store but the supplied
token "wrong" matches no stored token; the call returns 400 and the
store is unchanged. -/
theorem resetPassword_wrong_token_rejected_witness :
    wWrongTokenReq.validationErrors = [] ∧
    findUserById wTokenStore wWrongTokenReq.userId = some wUser ∧
    findToken wTokenStore wUser._id wWrongTokenReq.token = none ∧
    resetPassword wWrongTokenReq true wTokenStore
      = (.ok (Response Payload.obj false true
          "Password reset token is invalid or has expired." 400), wTokenStore) :=
  ⟨by decide, by decide, by decide,
   resetPassword_wrong_token_rejected wTokenStore wWrongTokenReq wUser true
     (by decide) (by decide) (by decide)⟩

/-- C6: signup with an email already present in the store hits the
store's uniqueness violation and returns the envelope with isError set,
status code 409 and a message naming the conflicting email, while the
store (in particular the original account's stored password hash) is
returned unchanged. -/
theorem signup_duplicate_email_conflict
    (req : SignupReq) (freshId : Nat) (st : Store)
    (hv : req.validationErrors = [])
    (hdup : st.users.any (fun v => v.email == req.email) = true) :
    signup req freshId st
      = (.ok (Response Payload.obj false true
          ("E-Mail address  " ++ req.email ++ " is already exists, please pick a different one.")
          409), st) := by
  simp [signup, hv, saveNewUser, hdup]

/-- C6 witness: a second signup for the taken email "jo@x.com" yields the
409 envelope naming it, and the store still holds wUser with its
original hash. -/
theorem signup_duplicate_email_conflict_witness :
    wDupSignupReq.validationErrors = [] ∧
    wStore.users.any (fun v => v.email == wDupSignupReq.email) = true ∧
    signup wDupSignupReq 9 wStore
      = (.ok (Response Payload.obj false true
          ("E-Mail address  " ++ wDupSignupReq.email ++ " is already exists, please pick a different one.")
          409), wStore) :=
  ⟨by decide, by decide,
   signup_duplicate_email_conflict wDupSignupReq 9 wStore (by decide) (by decide)⟩


/-- C4: a successful resetPassword deletes the consumed token, so the
same call replayed against the resulting store fails with status code
400 and returns that store unchanged (in particular the password is not
changed again). Assumes the documented store invariant of at most one
live reset token per user. -/
theorem resetPassword_consumes_token
    (st : Store) (req : ResetReq) (u : UserRec) (tk : TokenRec)
    (hv : req.validationErrors = [])
    (hu : findUserById st req.userId = some u)
    (ht : findToken st u._id req.token = some tk)
    (hinv : oneTokenPerUser st) :
    ∃ st2,
      resetPassword req true st
        = (.ok (Response Payload.obj true false
            "Your password has been Password Reset Successfully updated." 200), st2) ∧
      resetPassword req true st2
        = (.ok (Response Payload.obj false true
            "Password reset token is invalid or has expired." 400), st2) := by
  have ht0 : st.tokens.find?
      (fun t => t.userId == u._id && t.resetPasswordToken == req.token) = some tk := ht
  have hpred := List.find?_some ht0
  have hid : tk.userId = u._id := eq_of_beq (Bool.and_elim_left hpred)
  have htok : tk.resetPasswordToken = req.token := eq_of_beq (Bool.and_elim_right hpred)
  refine ⟨consumedStore st u tk req.password req.confirmPassword, ?_, ?_⟩
  · simp [resetPassword, hv, hu, ht, saveUserUpdate, consumedStore, replaceUser]
  · have hfpres : ∀ v : UserRec, (replaceUser u req.password req.confirmPassword v)._id = v._id := by
      intro v
      by_cases h : v._id = u._id
      · simp [replaceUser, h]
      · simp [replaceUser, h]
    have hu0 : st.users.find? (fun v => v._id == req.userId) = some u := hu
    have ha : findUserById (consumedStore st u tk req.password req.confirmPassword) req.userId
        = some (replaceUser u req.password req.confirmPassword u) := by
      simp only [findUserById, consumedStore]
      rw [find?_id_map st.users _ req.userId hfpres, hu0]
      rfl
    have hb : findToken (consumedStore st u tk req.password req.confirmPassword) u._id req.token
        = none := by
      simp only [findToken, consumedStore]
      rw [hid, htok]
      exact find?_eraseFirstToken_none st.tokens u._id req.token hinv
    have hrep : replaceUser u req.password req.confirmPassword u
        = { u with password := hashPassword req.password,
                   confirmPassword := req.confirmPassword } := by
      simp [replaceUser]
    rw [hrep] at ha
    simp [resetPassword, hv, ha, hb]

/-- C4 witness: concrete store with user 1 and live token "tok1"; the
first reset succeeds with 200, the replay fails with 400 leaving the
store unchanged. -/
theorem resetPassword_consumes_token_witness :
    wResetReq.validationErrors = [] ∧
    findUserById wTokenStore wResetReq.userId = some wUser ∧
    findToken wTokenStore wUser._id wResetReq.token
      = some { userId := 1, resetPasswordToken := "tok1" } ∧
    oneTokenPerUser wTokenStore ∧
    (∃ st2,
      resetPassword wResetReq true wTokenStore
        = (.ok (Response Payload.obj true false
            "Your password has been Password Reset Successfully updated." 200), st2) ∧
      resetPassword wResetReq true st2
        = (.ok (Response Payload.obj false true
            "Password reset token is invalid or has expired." 400), st2)) :=
  ⟨by decide, by decide, by decide, by decide,
   resetPassword_consumes_token wTokenStore wResetReq wUser
     { userId := 1, resetPasswordToken := "tok1" }
     (by decide) (by decide) (by decide) (by decide)⟩

/-- C7: signup with valid input and a fresh email returns an envelope
with success set, status code 201 and a payload of three non-empty token
strings (legacy token, access token, refresh token). -/
theorem signup_fresh_email_success
    (req : SignupReq) (freshId : Nat) (st : Store)
    (hv : req.validationErrors = [])
    (hfresh : st.users.any (fun v => v.email == req.email) = false) :
    ∃ t a r st1,
      signup req freshId st
        = (.ok (Response (Payload.tokens t a r) true false "Registered Successfully" 201), st1) ∧
      t ≠ "" ∧ a ≠ "" ∧ r ≠ "" := by
  refine ⟨createJWT (savedUserOf req freshId), signAccessToken freshId, signRefreshToken freshId,
    { st with users := st.users ++ [savedUserOf req freshId] }, ?_,
    createJWT_ne_empty _, signAccessToken_ne_empty _, signRefreshToken_ne_empty _⟩
  simp [signup, hv, saveNewUser, hfresh, savedUserOf]

/-- C7 witness: signup with the fresh email "al@x.com" against the
concrete store. -/
theorem signup_fresh_email_success_witness :
    wFreshSignupReq.validationErrors = [] ∧
    wStore.users.any (fun v => v.email == wFreshSignupReq.email) = false ∧
    (∃ t a r st1,
      signup wFreshSignupReq 9 wStore
        = (.ok (Response (Payload.tokens t a r) true false "Registered Successfully" 201), st1) ∧
      t ≠ "" ∧ a ≠ "" ∧ r ≠ "") :=
  ⟨by decide, by decide,
   signup_fresh_email_success wFreshSignupReq 9 wStore (by decide) (by decide)⟩


/-- C8: login with correct credentials returns a 200 envelope whose
payload is exactly the public user object (public profile fields plus the
three tokens) together with the three cookies, and the stored password
hash appears nowhere among the payload's strings. The distinctness
hypothesis rules out the degenerate case of a public profile field being
literally equal to the stored hash. -/
theorem login_correct_credentials_payload
    (st : Store) (prod : Bool) (e p : String) (u : UserRec)
    (hu : findUserByEmail st e = some u)
    (hp : comparePassword u p = true)
    (hpub : u.password ∉ [u.firstName, u.lastName, u.email, u.dateOfBirth, u.gender, u.role]) :
    login { email := e, password := p, validationErrors := [] } prod st
      = .ok (Response (Payload.loginData (publicUserOf u)) true false "Auth successful" 200,
          [CookieOp.set "authToken" (createJWT u) true (365 * 24 * 60 * 60 * 1000) prod,
           CookieOp.set "accessToken" (signAccessToken u._id) true (24 * 60 * 60 * 1000) prod,
           CookieOp.set "refreshToken" (signRefreshToken u._id) true (7 * 24 * 60 * 60 * 1000) prod]) ∧
    u.password ∉ (Payload.loginData (publicUserOf u)).strings := by
  constructor
  · simp [login, hu, hp, publicUserOf]
  · have hpw := eq_of_comparePassword u p hp
    have h6 := hpub
    simp only [List.mem_cons, List.not_mem_nil, or_false, not_or] at h6
    intro hmem
    simp only [Payload.strings, PublicUser.strings, publicUserOf, List.mem_cons,
      List.not_mem_nil, or_false] at hmem
    rcases hmem with h | h | h | h | h | h | h | h | h
    · exact h6.1 h
    · exact h6.2.1 h
    · exact h6.2.2.1 h
    · exact h6.2.2.2.1 h
    · exact h6.2.2.2.2.1 h
    · exact h6.2.2.2.2.2 h
    · exact hashPassword_ne_createJWT p u (hpw.symm.trans h)
    · exact hashPassword_ne_access p u._id (hpw.symm.trans h)
    · exact hashPassword_ne_refresh p u._id (hpw.symm.trans h)

/-- C8 witness: login of wUser with the correct password "pw"; the
stored hash "h:pw" is none of the payload strings. -/
theorem login_correct_credentials_payload_witness :
    findUserByEmail wStore "jo@x.com" = some wUser ∧
    comparePassword wUser "pw" = true ∧
    wUser.password ∉ [wUser.firstName, wUser.lastName, wUser.email, wUser.dateOfBirth,
      wUser.gender, wUser.role] ∧
    (login { email := "jo@x.com", password := "pw", validationErrors := [] } false wStore
      = .ok (Response (Payload.loginData (publicUserOf wUser)) true false "Auth successful" 200,
          [CookieOp.set "authToken" (createJWT wUser) true (365 * 24 * 60 * 60 * 1000) false,
           CookieOp.set "accessToken" (signAccessToken wUser._id) true (24 * 60 * 60 * 1000) false,
           CookieOp.set "refreshToken" (signRefreshToken wUser._id) true (7 * 24 * 60 * 60 * 1000) false]) ∧
     wUser.password ∉ (Payload.loginData (publicUserOf wUser)).strings) :=
  ⟨by decide, by decide, by decide,
   login_correct_credentials_payload wStore false "jo@x.com" "pw" wUser
     (by decide) (by decide) (by decide)⟩

/-- C9 counterexample: at a concrete failing-validation signup request,
the returned 422 envelope's oldInput does contain the submitted password
"Secret1!" and confirmPassword "Secret1!", refuting the claim that only
non-sensitive fields are echoed. -/
theorem signup_oldInput_echoes_password_cex :
    (signup wInvalidSignupReq 7 wStore).1
      = .ok { payload := Payload.obj, success := false, isError := true,
              message := "E-Mail address is invalid", statusCode := 422,
              oldInput := some (OldInput.signupInput "Al" "Bee" "not-an-email"
                "Secret1!" "Secret1!" "1999-01-01" "male"),
              validationErrors := ["E-Mail address is invalid"] } := by decide

/-- C9 amended: signup failing validation returns a 422 envelope whose
message is the first validation error and whose oldInput echoes all the
submitted body fields: firstName, lastName, email, dateOfBirth, gender
and also the sensitive password and confirmPassword. -/
theorem signup_validation_failure_echoes_all_fields
    (req : SignupReq) (freshId : Nat) (st : Store) (msg : String) (rest : List String)
    (hv : req.validationErrors = msg :: rest) :
    signup req freshId st
      = (.ok { payload := Payload.obj, success := false, isError := true, message := msg,
               statusCode := 422,
               oldInput := some (OldInput.signupInput req.firstName req.lastName req.email
                 req.password req.confirmPassword req.dateOfBirth req.gender),
               validationErrors := msg :: rest }, st) := by
  simp [signup, hv, Response]

/-- C9 amended witness: the concrete failing-validation request. -/
theorem signup_validation_failure_echoes_all_fields_witness :
    wInvalidSignupReq.validationErrors = ["E-Mail address is invalid"] ∧
    signup wInvalidSignupReq 7 wStore
      = (.ok { payload := Payload.obj, success := false, isError := true,
               message := "E-Mail address is invalid", statusCode := 422,
               oldInput := some (OldInput.signupInput wInvalidSignupReq.firstName
                 wInvalidSignupReq.lastName wInvalidSignupReq.email wInvalidSignupReq.password
                 wInvalidSignupReq.confirmPassword wInvalidSignupReq.dateOfBirth
                 wInvalidSignupReq.gender),
               validationErrors := ["E-Mail address is invalid"] }, wStore) :=
  ⟨by decide,
   signup_validation_failure_echoes_all_fields wInvalidSignupReq 7 wStore
     "E-Mail address is invalid" [] (by decide)⟩

/-- C10: when the user and token lookups succeed but persisting the
password update fails, resetPassword propagates the error to the generic
error path with the store unchanged: the reset token is still live.
Moreover the token store changes only when the save succeeded. -/
theorem resetPassword_deletes_only_after_persist
    (st : Store) (req : ResetReq) (u : UserRec) (tk : TokenRec)
    (hv : req.validationErrors = [])
    (hu : findUserById st req.userId = some u)
    (ht : findToken st u._id req.token = some tk) :
    resetPassword req false st = (.error (AppError.storeError "user save failed"), st) ∧
    findToken (resetPassword req false st).2 u._id req.token = some tk ∧
    (∀ b : Bool, (resetPassword req b st).2.tokens ≠ st.tokens → b = true) := by
  have h1 : resetPassword req false st = (.error (AppError.storeError "user save failed"), st) := by
    simp [resetPassword, hv, hu, ht]
  refine ⟨h1, ?_, ?_⟩
  · rw [h1]
    exact ht
  · intro b hb
    cases b
    · rw [h1] at hb
      exact absurd rfl hb
    · rfl

/-- C10 witness: in the concrete store, a failed save leaves the token
"tok1" live and the error is propagated. -/
theorem resetPassword_deletes_only_after_persist_witness :
    wResetReq.validationErrors = [] ∧
    findUserById wTokenStore wResetReq.userId = some wUser ∧
    findToken wTokenStore wUser._id wResetReq.token
      = some { userId := 1, resetPasswordToken := "tok1" } ∧
    (resetPassword wResetReq false wTokenStore
        = (.error (AppError.storeError "user save failed"), wTokenStore) ∧
     findToken (resetPassword wResetReq false wTokenStore).2 wUser._id wResetReq.token
        = some { userId := 1, resetPasswordToken := "tok1" } ∧
     (∀ b : Bool, (resetPassword wResetReq b wTokenStore).2.tokens ≠ wTokenStore.tokens → b = true)) :=
  ⟨by decide, by decide, by decide,
   resetPassword_deletes_only_after_persist wTokenStore wResetReq wUser
     { userId := 1, resetPasswordToken := "tok1" }
     (by decide) (by decide) (by decide)⟩

end AuthService
